import Mathlib

/-!
Shallow embedding of the STM32 toolchain-helper engine
(`DeviceManager`, `ToolchainManager`, `BuildService`, `FlashService`,
`PathUtils`).  Strings are modelled as `List Char`; the JavaScript regular
expressions used by the source are embedded as specialised backtracking
matchers with the same leftmost-match, greedy/lazy semantics; the file
system and subprocess layer are modelled as explicit environments.
-/

/-- The character list of a string literal (JS strings as `List Char`). -/
def chars (s : String) : List Char := s.data

/-- JS `String.prototype.includes`: `hasSubstr s pat` is true iff `pat`
occurs as a contiguous substring of `s` (the empty pattern always occurs). -/
def hasSubstr : List Char → List Char → Bool
  | s, pat =>
    if pat.isPrefixOf s then true
    else
      match s with
      | [] => false
      | _ :: t => hasSubstr t pat

/-- JS whitespace class `\s`, restricted to the ASCII whitespace characters
that can occur in tool output. -/
def jsSpace (c : Char) : Bool :=
  c = ' ' || c = '\t' || c = '\n' || c = '\r' || c = '\x0b' || c = '\x0c'

/-- JS `String.prototype.trim`: strip whitespace from both ends. -/
def trimChars (s : List Char) : List Char :=
  ((s.dropWhile jsSpace).reverse.dropWhile jsSpace).reverse

/-- JS `String.prototype.split('\n')`. -/
def splitOnNl : List Char → List (List Char)
  | [] => [[]]
  | c :: t =>
    let rest := splitOnNl t
    if c = '\n' then [] :: rest
    else
      match rest with
      | [] => [[c]]
      | l :: ls => (c :: l) :: ls

/-- Regex word class `\w` (`[A-Za-z0-9_]`). -/
def isWordChar (c : Char) : Bool :=
  ('A' ≤ c && c ≤ 'Z') || ('a' ≤ c && c ≤ 'z') || ('0' ≤ c && c ≤ '9') || c = '_'

/-- Regex class `[A-Z]`. -/
def isUpperAZ (c : Char) : Bool := 'A' ≤ c && c ≤ 'Z'

/-- Regex class `\d`. -/
def isDigit09 (c : Char) : Bool := '0' ≤ c && c ≤ '9'

/-- Regex class `[A-Z0-9]` under the `/i` flag, i.e. `[A-Za-z0-9]`. -/
def isAlnumCi (c : Char) : Bool :=
  isUpperAZ c || ('a' ≤ c && c ≤ 'z') || isDigit09 c

/-- Regex class `[\d.]`. -/
def isDigitOrDot (c : Char) : Bool := isDigit09 c || c = '.'

/-- JS `parseInt` on a non-empty digit string. -/
def natOfDigits (l : List Char) : Nat :=
  l.foldl (fun n c => n * 10 + (c.toNat - 48)) 0

/-- JS `parseFloat` on a capture of class `[\d.]+`: an optional integer part,
then an optional `.` followed by a fractional digit run; trailing garbage is
ignored.  Captures with no digit at all (JS would give `NaN`) map to `0`;
such captures never arise in the outputs considered here. -/
def ratOfDecimal (l : List Char) : Rat :=
  let intPart := l.takeWhile isDigit09
  let rest := l.drop intPart.length
  match rest with
  | '.' :: r =>
    let frac := r.takeWhile isDigit09
    mkRat (natOfDigits intPart * 10 ^ frac.length + natOfDigits frac) (10 ^ frac.length)
  | _ => mkRat (natOfDigits intPart) 1

/-! ## BuildService: output parsing (`parseErrors`, `parseWarnings`,
`parseMemoryUsage`) -/

/-- Line classifier used by `BuildService.parseErrors`:
`line.includes('error:') || line.includes('ERROR:')`. -/
def isErrLine (line : List Char) : Bool :=
  hasSubstr line (chars "error:") || hasSubstr line (chars "ERROR:")

/-- Line classifier used by `BuildService.parseWarnings`:
`line.includes('warning:') && !line.includes('error:')`. -/
def isWarnLine (line : List Char) : Bool :=
  hasSubstr line (chars "warning:") && !hasSubstr line (chars "error:")

/-- `BuildService.parseErrors`: split the output on newlines and collect the
trimmed lines matching the error classifier, in order. -/
def parseErrors (output : List Char) : List (List Char) :=
  ((splitOnNl output).filter isErrLine).map trimChars

/-- `BuildService.parseWarnings`: split the output on newlines and collect the
trimmed lines matching the warning classifier, in order. -/
def parseWarnings (output : List Char) : List (List Char) :=
  ((splitOnNl output).filter isWarnLine).map trimChars

/-! Regex building blocks.  The memory-usage pattern
`/Memory region\s+Used Size[\s\S]*?FLASH:\s+(\d+)\s+\w+\s+(\d+)\s+\w+\s+([\d.]+)%[\s\S]*?RAM: .../`
is embedded with the regex engine's semantics: the overall match is
leftmost, a lazy `[\s\S]*?` advances one character at a time retrying its
continuation, and each greedy `X+` here is followed by a token disjoint
from `X`, so it never has to give characters back. -/

/-- Greedy `X+` for a character class: the maximal non-empty run, with the
remaining input.  Fails on an empty run. -/
def takeWhile1 (p : Char → Bool) (s : List Char) : Option (List Char × List Char) :=
  let run := s.takeWhile p
  if run.length = 0 then none else some (run, s.drop run.length)

/-- Consume a literal, or fail. -/
def stripLit (lit s : List Char) : Option (List Char) :=
  if lit.isPrefixOf s then some (s.drop lit.length) else none

/-- `[\s\S]*?lit` followed by a continuation `k`: starting at each position
in turn (leftmost first), if `lit` matches there and `k` succeeds on the
rest, that result is returned; otherwise the scan advances one character. -/
def scanFor {α : Type} (lit : List Char) (k : List Char → Option α) : List Char → Option α
  | [] => if lit.isPrefixOf ([] : List Char) then k [] else none
  | c :: t =>
    match (if lit.isPrefixOf (c :: t) then k ((c :: t).drop lit.length) else none) with
    | some r => some r
    | none => scanFor lit k t

/-- One memory-region section of the pattern:
`\s+(\d+)\s+\w+\s+(\d+)\s+\w+\s+([\d.]+)%`, returning the three captures
and the remaining input. -/
def matchMemSection (s : List Char) : Option ((List Char × List Char × List Char) × List Char) := do
  let (_, s) ← takeWhile1 jsSpace s
  let (used, s) ← takeWhile1 isDigit09 s
  let (_, s) ← takeWhile1 jsSpace s
  let (_, s) ← takeWhile1 isWordChar s
  let (_, s) ← takeWhile1 jsSpace s
  let (total, s) ← takeWhile1 isDigit09 s
  let (_, s) ← takeWhile1 jsSpace s
  let (_, s) ← takeWhile1 isWordChar s
  let (_, s) ← takeWhile1 jsSpace s
  let (pct, s) ← takeWhile1 isDigitOrDot s
  match s with
  | '%' :: rest => some ((used, total, pct), rest)
  | _ => none

/-- One region row of the parsed memory-usage table. -/
structure MemRegion where
  used : Nat
  total : Nat
  percentage : Rat
deriving DecidableEq, Repr

/-- `MemoryUsage`: both regions are produced together by a single match. -/
structure MemoryUsage where
  flash : MemRegion
  ram : MemRegion
deriving DecidableEq, Repr

/-- Build a `MemRegion` from the three regex captures, applying `parseInt`
to the sizes and `parseFloat` to the percentage as the source does. -/
def memRegionOfCaps (caps : List Char × List Char × List Char) : MemRegion :=
  { used := natOfDigits caps.1
    total := natOfDigits caps.2.1
    percentage := ratOfDecimal caps.2.2 }

/-- `BuildService.parseMemoryUsage`: match the fixed multi-line pattern
against the build output; on success return both regions, otherwise
`none`. -/
def parseMemoryUsage (output : List Char) : Option MemoryUsage :=
  scanFor (chars "Memory region") (fun s => do
    let (_, s) ← takeWhile1 jsSpace s
    let s ← stripLit (chars "Used Size") s
    scanFor (chars "FLASH:") (fun s => do
      let (fcaps, s) ← matchMemSection s
      scanFor (chars "RAM:") (fun s => do
        let (rcaps, _) ← matchMemSection s
        some { flash := memRegionOfCaps fcaps, ram := memRegionOfCaps rcaps }) s) s) output

/-- The documented sample output block for the memory-usage table. -/
def sampleMemOutput : List Char :=
  chars "arm-none-eabi-gcc main.o -o firmware.elf\nMemory region         Used Size  Region Size  %age Used\n           FLASH:       12345 B        65536 B     18.8%\n             RAM:        2048 B       131072 B      1.6%\nDone.\n"

/-! ## DeviceManager: device detection and name parsing -/

/-- Leftmost-match scanning: run an at-this-position matcher at every
position of the input, earliest first (the implicit scan loop of
`String.prototype.match` with an unanchored pattern). -/
def firstPosMatch {α : Type} (att : List Char → Option α) : List Char → Option α
  | [] => att []
  | c :: t =>
    match att (c :: t) with
    | some r => some r
    | none => firstPosMatch att t

/-- Regex class `[A-Z0-9]` (case-sensitive). -/
def isAlnumUp (c : Char) : Bool := isUpperAZ c || isDigit09 c

/-- Lowercase a character list (ASCII, as in the device names involved). -/
def toLowerList (l : List Char) : List Char := l.map Char.toLower

/-- Case-insensitive literal consumption (regex `/i` flag, ASCII folding). -/
def ciStrip (lit s : List Char) : Option (List Char) :=
  if (toLowerList lit).isPrefixOf (toLowerList s) then some (s.drop lit.length) else none

/-- Greedy `cls+`-like run followed by a case-insensitive literal, with the
regex engine's backtracking: prefer the longest class run whose remainder
starts with the literal.  Returns (class run, literal as matched, rest);
the returned class run may be empty, callers enforce `+`. -/
def greedyClassThen (cls : Char → Bool) (suffix : List Char) : List Char → Option (List Char × List Char × List Char)
  | [] =>
    if (toLowerList suffix).isPrefixOf ([] : List Char) then some ([], [], []) else none
  | c :: t =>
    if cls c then
      match greedyClassThen cls suffix t with
      | some (m, sa, r) => some (c :: m, sa, r)
      | none =>
        if (toLowerList suffix).isPrefixOf (toLowerList (c :: t)) then
          some ([], (c :: t).take suffix.length, (c :: t).drop suffix.length)
        else none
    else
      if (toLowerList suffix).isPrefixOf (toLowerList (c :: t)) then
        some ([], (c :: t).take suffix.length, (c :: t).drop suffix.length)
      else none

/-- JS `String.prototype.replace` with a string pattern: replace the first
occurrence only. -/
def replaceFirst : List Char → List Char → List Char → List Char
  | s, pat, repl =>
    if pat.isPrefixOf s then repl ++ s.drop pat.length
    else
      match s with
      | [] => []
      | c :: t => c :: replaceFirst t pat repl

/-- The `/STM32([A-Z]\d)/` capture (used by both the family and the line
extraction in `parseDeviceName`; the optional `x?` of the line pattern
affects neither the capture nor matchability). -/
def famCode : List Char → Option (Char × Char) :=
  firstPosMatch (fun s =>
    if (chars "STM32").isPrefixOf s then
      match s.drop 5 with
      | a :: b :: _ => if isUpperAZ a && isDigit09 b then some (a, b) else none
      | _ => none
    else none)

/-- The `/STM32[A-Z]\d+([A-Z])\d/` capture of `estimateFlashSize`.  The
greedy `\d+` never backtracks because `[A-Z]` is disjoint from `\d`. -/
def flashSizeCode : List Char → Option Char :=
  firstPosMatch (fun s =>
    if (chars "STM32").isPrefixOf s then
      match s.drop 5 with
      | a :: rest =>
        if isUpperAZ a then
          let ds := rest.takeWhile isDigit09
          if ds.length = 0 then none
          else
            match rest.drop ds.length with
            | u :: d :: _ => if isUpperAZ u && isDigit09 d then some u else none
            | _ => none
        else none
      | [] => none
    else none)

/-- The size-code table of `estimateFlashSize` (KB per size-code letter). -/
def flashSizeMap (c : Char) : Option Nat :=
  match c with
  | '4' => some 16
  | '6' => some 32
  | '8' => some 64
  | 'B' => some 128
  | 'C' => some 256
  | 'E' => some 512
  | 'F' => some 768
  | 'G' => some 1024
  | 'H' => some 1536
  | 'I' => some 2048
  | _ => none

/-- `DeviceManager.estimateFlashSize`: size-code lookup, default 512. -/
def estimateFlashSize (deviceName : List Char) : Nat :=
  match flashSizeCode deviceName with
  | none => 512
  | some c => (flashSizeMap c).getD 512

/-- The RAM table of `estimateRamSize`, keyed by the two-character family
code. -/
def ramSizeTable : List (List Char × Nat) :=
  [(chars "F0", 8), (chars "F1", 20), (chars "F2", 128), (chars "F3", 40),
   (chars "F4", 192), (chars "F7", 320), (chars "G0", 36), (chars "G4", 128),
   (chars "H7", 1024), (chars "L0", 8), (chars "L1", 16), (chars "L4", 128),
   (chars "L5", 256)]

/-- `DeviceManager.estimateRamSize`: family-code lookup with key default
`F4` when the family pattern does not match, and value default 128 when the
key is absent from the table. -/
def estimateRamSize (deviceName : List Char) : Nat :=
  let fam :=
    match famCode deviceName with
    | some (a, b) => [a, b]
    | none => chars "F4"
  ((ramSizeTable.lookup fam).getD 128)

/-- `DeviceInfo` as produced by `DeviceManager.parseDeviceName`. -/
structure DeviceInfo where
  name : List Char
  family : List Char
  line : List Char
  flashSize : Nat
  ramSize : Nat
  openocdTarget : List Char
deriving DecidableEq, Repr

/-- `DeviceManager.parseDeviceName`. -/
def parseDeviceName (deviceName : List Char) : DeviceInfo :=
  let fam := famCode deviceName
  let family :=
    match fam with
    | some (a, b) => chars "STM32" ++ [a, b]
    | none => chars "STM32F4"
  let line :=
    match fam with
    | some (a, b) => chars "stm32" ++ [a.toLower, b.toLower] ++ ['x']
    | none => chars "stm32f4x"
  { name := deviceName.map Char.toUpper
    family := family
    line := line
    flashSize := estimateFlashSize deviceName
    ramSize := estimateRamSize deviceName
    openocdTarget := chars "target/" ++ line ++ chars ".cfg" }

/-- The `.ioc` capture `/Mcu\.Name=(STM32[A-Z0-9]+)/` (case-sensitive). -/
def iocDeviceMatch : List Char → Option (List Char) :=
  firstPosMatch (fun s =>
    match stripLit (chars "Mcu.Name=STM32") s with
    | some rest =>
      let run := rest.takeWhile isAlnumUp
      if run.length = 0 then none else some (chars "STM32" ++ run)
    | none => none)

/-- Branch `-D(STM32[A-Z0-9]+xx)` of the Makefile pattern (under `/i`). -/
def makefileBranchA (s : List Char) : Option (List Char) :=
  match ciStrip (chars "-D") s with
  | none => none
  | some s1 =>
    match ciStrip (chars "STM32") s1 with
    | none => none
    | some s2 =>
      match greedyClassThen isAlnumCi (chars "xx") s2 with
      | some (m, sa, _) => if m.length = 0 then none else some (s1.take 5 ++ m ++ sa)
      | none => none

/-- Branch `TARGET\s*[=:]\s*(STM32[A-Z0-9]+)` of the Makefile pattern
(under `/i`). -/
def makefileBranchB (s : List Char) : Option (List Char) :=
  match ciStrip (chars "TARGET") s with
  | none => none
  | some s1 =>
    match s1.dropWhile jsSpace with
    | [] => none
    | c :: s3 =>
      if c = '=' || c = ':' then
        let s4 := s3.dropWhile jsSpace
        match ciStrip (chars "STM32") s4 with
        | some s5 =>
          let run := s5.takeWhile isAlnumCi
          if run.length = 0 then none else some (s4.take 5 ++ run)
        | none => none
      else none

/-- The Makefile device capture, pattern
`-D(STM32[A-Z0-9]+xx)|TARGET\s*[=:]\s*(STM32[A-Z0-9]+)` under `/i`: at each
position, earliest first, the left alternative is tried before the right
one; the result is `deviceMatch[1] || deviceMatch[2]`. -/
def makefileDeviceMatch : List Char → Option (List Char) :=
  firstPosMatch (fun s =>
    match makefileBranchA s with
    | some cap => some cap
    | none => makefileBranchB s)

/-- The linker-script capture `/(STM32[A-Z0-9]+)_FLASH\.ld/i` applied to a
file's base name. -/
def linkerDeviceMatch : List Char → Option (List Char) :=
  firstPosMatch (fun s =>
    match ciStrip (chars "STM32") s with
    | some rest =>
      match greedyClassThen isAlnumCi (chars "_FLASH.ld") rest with
      | some (m, _, _) => if m.length = 0 then none else some (s.take 5 ++ m)
      | none => none
    | none => none)

/-- A file of the workspace: its base name, its directory depth below the
workspace root (0 = at the root), and its content.  A workspace is the
DFS pre-order listing of its files, which is exactly the visit order of
`PathUtils.findFile`. -/
structure FsFile where
  name : List Char
  depth : Nat
  content : List Char
deriving DecidableEq, Repr

/-- `PathUtils.findFile`: the recursive search returns the first file in
DFS pre-order whose name IS EXACTLY `fileName` (plain string equality — the
`fileName` argument is never treated as a glob pattern) and whose directory
lies within `maxDepth` levels of the root. -/
def findFile (fsys : List FsFile) (fileName : List Char) (maxDepth : Nat) : Option FsFile :=
  fsys.find? (fun f => f.name == fileName && decide (f.depth ≤ maxDepth))

/-- `DeviceManager.detectFromIoc`: look for a file named `*.ioc` (sic) at
depth ≤ 1 and apply the `Mcu.Name` capture to its content. -/
def detectFromIoc (fsys : List FsFile) : Option DeviceInfo :=
  match findFile fsys (chars "*.ioc") 1 with
  | none => none
  | some f =>
    match iocDeviceMatch f.content with
    | some d => some (parseDeviceName d)
    | none => none

/-- `DeviceManager.detectFromMakefile`: the file `Makefile` at the
workspace root (top level only), then the Makefile device capture with the
first `xx` stripped from the captured name. -/
def detectFromMakefile (fsys : List FsFile) : Option DeviceInfo :=
  match fsys.find? (fun f => f.name == chars "Makefile" && f.depth == 0) with
  | none => none
  | some f =>
    match makefileDeviceMatch f.content with
    | some d => some (parseDeviceName (replaceFirst d (chars "xx") []))
    | none => none

/-- `DeviceManager.detectFromLinkerScript`: look for a file named
`*_FLASH.ld` (sic) at depth ≤ 2 and apply the linker capture to its base
name. -/
def detectFromLinkerScript (fsys : List FsFile) : Option DeviceInfo :=
  match findFile fsys (chars "*_FLASH.ld") 2 with
  | none => none
  | some f =>
    match linkerDeviceMatch f.name with
    | some d => some (parseDeviceName d)
    | none => none

/-- `DeviceManager.detectDevice` with the `cachedDeviceInfo` field made
explicit: returns the detection result together with the new cache
content. -/
def detectDevice (cached : Option DeviceInfo) (fsys : List FsFile) : Option DeviceInfo × Option DeviceInfo :=
  match cached with
  | some d => (some d, some d)
  | none =>
    match detectFromIoc fsys with
    | some d => (some d, some d)
    | none =>
      match detectFromMakefile fsys with
      | some d => (some d, some d)
      | none =>
        match detectFromLinkerScript fsys with
        | some d => (some d, some d)
        | none => (none, none)

/-! ## ToolchainManager: detection, caching, validation -/

/-- A per-tool detection result (`ToolInfo`). -/
structure ToolInfo where
  found : Bool
  path : Option (List Char)
  version : Option (List Char)
  error : Option (List Char)
deriving DecidableEq, Repr

/-- The machine as seen by `ToolchainManager.findTool`: the platform name,
`ProcessUtils.commandExists`, `ProcessUtils.getVersion`,
`DetectionUtils.findInCommonLocations` and `PathUtils.isExecutable`. -/
structure ToolchainEnv where
  platform : List Char
  commandOnPath : List Char → Bool
  versionOf : List Char → Option (List Char)
  commonLocation : List Char → Option (List Char)
  executableAt : List Char → Bool

/-- `PathUtils.getExecutableName`: append `.exe` on win32. -/
def getExecutableName (platform baseName : List Char) : List Char :=
  if platform == chars "win32" then baseName ++ chars ".exe" else baseName

/-- `ToolchainManager.findTool`: search the path first, then the common
installation directories, else report not-found with a message. -/
def findTool (env : ToolchainEnv) (toolName : List Char) : ToolInfo :=
  let executableName := getExecutableName env.platform toolName
  let notFound : ToolInfo :=
    { found := false, path := none, version := none
      error := some (toolName ++ chars " not found in PATH or common locations") }
  if env.commandOnPath executableName then
    { found := true, path := some executableName
      version := env.versionOf executableName, error := none }
  else
    match env.commonLocation executableName with
    | some commonPath =>
      if env.executableAt commonPath then
        { found := true, path := some commonPath
          version := env.versionOf commonPath, error := none }
      else notFound
    | none => notFound

/-- `ToolchainManager.findGdb`: on Linux prefer `gdb-multiarch`, then fall
back to `arm-none-eabi-gdb`. -/
def findGdb (env : ToolchainEnv) : ToolInfo :=
  if env.platform == chars "linux" then
    let gdbMultiarch := findTool env (chars "gdb-multiarch")
    if gdbMultiarch.found then gdbMultiarch else findTool env (chars "arm-none-eabi-gdb")
  else findTool env (chars "arm-none-eabi-gdb")

/-- The toolchain snapshot (`ToolchainInfo`). -/
structure ToolchainInfo where
  gcc : ToolInfo
  gdb : ToolInfo
  openocd : ToolInfo
  make : ToolInfo
  cmake : ToolInfo
deriving DecidableEq, Repr

/-- The probe performed by `ToolchainManager.detectToolchain` on a cache
miss. -/
def probeToolchain (env : ToolchainEnv) : ToolchainInfo :=
  { gcc := findTool env (chars "arm-none-eabi-gcc")
    gdb := findGdb env
    openocd := findTool env (chars "openocd")
    make := findTool env (chars "make")
    cmake := findTool env (chars "cmake") }

/-- `ToolchainManager.detectToolchain` with the `cachedToolchain` field made
explicit: returns the snapshot and the new cache content.  A warm cache is
returned as-is without touching the environment. -/
def detectToolchain (env : ToolchainEnv) (cached : Option ToolchainInfo) :
    ToolchainInfo × Option ToolchainInfo :=
  match cached with
  | some t => (t, some t)
  | none =>
    let t := probeToolchain env
    (t, some t)

/-- `ToolchainManager.clearCache`: reset the cache field to null. -/
def clearCache (_cached : Option ToolchainInfo) : Option ToolchainInfo := none

/-- Result shape of `ToolchainManager.validateToolchain`. -/
structure ValidationOutcome where
  allFound : Bool
  missing : List (List Char)
deriving DecidableEq, Repr

/-- `ToolchainManager.validateToolchain` as a function of the detected
snapshot: collect the missing required tools in detection order (gcc,
gdb, openocd, make; cmake is optional and never required). -/
def validateToolchain (toolchain : ToolchainInfo) : ValidationOutcome :=
  let missing :=
    (if toolchain.gcc.found then [] else [chars "arm-none-eabi-gcc"]) ++
    (if toolchain.gdb.found then [] else [chars "gdb"]) ++
    (if toolchain.openocd.found then [] else [chars "openocd"]) ++
    (if toolchain.make.found then [] else [chars "make"])
  { allFound := missing.length == 0, missing := missing }

/-- `ToolchainManager.getOpenOcdPath`: the snapshot's openocd path when
found, else nothing. -/
def getOpenOcdPath (toolchain : ToolchainInfo) : Option (List Char) :=
  if toolchain.openocd.found then toolchain.openocd.path else none

/-! ## BuildService: profiles and the build flow -/

/-- A subprocess outcome as returned by `ProcessUtils.exec` (which never
throws: failures come back as a non-zero exit code). -/
structure ExecResult where
  stdout : List Char
  stderr : List Char
  exitCode : Int
deriving DecidableEq, Repr

/-- A named optimisation profile (`BuildProfile`). -/
structure BuildProfile where
  name : List Char
  flags : List (List Char)
  description : List Char
deriving DecidableEq, Repr

/-- `BuildService.BUILD_PROFILES`: the six fixed profiles, in source
order. -/
def BUILD_PROFILES : List (List Char × BuildProfile) :=
  [(chars "O0",
    { name := chars "O0", flags := [chars "-O0", chars "-g3", chars "-DDEBUG"]
      description := chars "No optimization - Best for debugging" }),
   (chars "O1",
    { name := chars "O1", flags := [chars "-O1", chars "-g2"]
      description := chars "Basic optimization" }),
   (chars "O2",
    { name := chars "O2"
      flags := [chars "-O2", chars "-g1", chars "-flto", chars "-ffunction-sections", chars "-fdata-sections"]
      description := chars "Standard optimization - Recommended for production" }),
   (chars "O3",
    { name := chars "O3"
      flags := [chars "-O3", chars "-flto", chars "-ffunction-sections", chars "-fdata-sections", chars "-funroll-loops", chars "-finline-functions"]
      description := chars "Aggressive optimization - Maximum speed" }),
   (chars "Os",
    { name := chars "Os"
      flags := [chars "-Os", chars "-flto", chars "-ffunction-sections", chars "-fdata-sections", chars "-fno-exceptions"]
      description := chars "Size optimization - Minimum flash usage" }),
   (chars "Og",
    { name := chars "Og", flags := [chars "-Og", chars "-g3", chars "-DDEBUG"]
      description := chars "Debug-friendly optimization" })]

/-- `BuildService.LINKER_FLAGS`. -/
def LINKER_FLAGS : List Char := chars "-Wl,--gc-sections -Wl,--print-memory-usage"

/-- `BuildResult` (optional fields as produced by the source). -/
structure BuildResult where
  success : Bool
  output : List Char
  memoryUsage : Option MemoryUsage
  duration : Nat
  errors : Option (List (List Char))
  warnings : Option (List (List Char))
deriving DecidableEq, Repr

/-- The two supported build systems. -/
inductive BuildSystem where
  | makefile
  | cmake
deriving DecidableEq, Repr

/-- Error taxonomy of the faults `BuildService.build` can surface. -/
inductive ErrCode where
  | toolchainNotFound
  | buildFailed
deriving DecidableEq, Repr

/-- An `STM32Error` as thrown by `BuildService.build`. -/
structure BuildFault where
  code : ErrCode
  message : List Char
deriving DecidableEq, Repr

/-- The environment of one `BuildService.build` invocation: the toolchain
environment and cache, the subprocess layer keyed by command line, the
processor count, and the elapsed-time observation. -/
structure BuildEnv where
  toolEnv : ToolchainEnv
  toolCache : Option ToolchainInfo
  exec : List Char → ExecResult
  cpus : Nat
  durationMs : Nat

/-- `BuildService.getParallelJobs`: `Math.max(1, cpus)`. -/
def getParallelJobs (env : BuildEnv) : Nat := max 1 env.cpus

/-- Join flag lists with single spaces (JS `Array.prototype.join(' ')`). -/
def joinSpace (l : List (List Char)) : List Char := List.intercalate (chars " ") l

/-- `BuildService.buildWithMakefile`, with the executed command lines
collected as a trace.  An invalid profile throws (locally, before any
subprocess) a plain error that `build` later wraps. -/
def buildWithMakefile (env : BuildEnv) (profile : List Char) :
    Except (List Char) BuildResult × List (List Char) :=
  match BUILD_PROFILES.lookup profile with
  | none => (Except.error (chars "Invalid build profile: " ++ profile), [])
  | some buildProfile =>
    let flags := joinSpace buildProfile.flags
    let jobs := getParallelJobs env
    let buildCmd := chars "make -j" ++ chars (toString jobs) ++ chars " OPT=\"" ++ flags
      ++ chars "\" LDFLAGS+=\"" ++ LINKER_FLAGS ++ chars "\""
    let result := env.exec buildCmd
    if result.exitCode ≠ 0 then
      (Except.ok
        { success := false, output := result.stdout ++ chars "\n" ++ result.stderr
          memoryUsage := none, duration := env.durationMs
          errors := some (parseErrors (result.stdout ++ result.stderr)), warnings := none },
       [buildCmd])
    else
      (Except.ok
        { success := true, output := result.stdout
          memoryUsage := parseMemoryUsage result.stdout, duration := env.durationMs
          errors := none
          warnings := some (parseWarnings (result.stdout ++ result.stderr)) },
       [buildCmd])

/-- `BuildService.buildWithCMake`, with the executed command lines collected
as a trace.  The profile string is interpolated into the configure command
without any validation. -/
def buildWithCMake (env : BuildEnv) (profile : List Char) :
    Except (List Char) BuildResult × List (List Char) :=
  let configCmd := chars "cmake -DCMAKE_BUILD_TYPE=" ++ profile
    ++ chars " -DBUILD_PROFILE=" ++ profile ++ chars " .."
  let configResult := env.exec configCmd
  if configResult.exitCode ≠ 0 then
    (Except.error (chars "CMake configuration failed: " ++ configResult.stderr), [configCmd])
  else
    let jobs := getParallelJobs env
    let buildCmd := chars "cmake --build . -j" ++ chars (toString jobs)
    let buildResult := env.exec buildCmd
    if buildResult.exitCode ≠ 0 then
      (Except.ok
        { success := false, output := buildResult.stdout ++ chars "\n" ++ buildResult.stderr
          memoryUsage := none, duration := env.durationMs
          errors := some (parseErrors (buildResult.stdout ++ buildResult.stderr)), warnings := none },
       [configCmd, buildCmd])
    else
      (Except.ok
        { success := true, output := buildResult.stdout, memoryUsage := none
          duration := env.durationMs, errors := none, warnings := none },
       [configCmd, buildCmd])

/-- Join with `', '` (JS `Array.prototype.join(', ')`). -/
def joinComma (l : List (List Char)) : List Char := List.intercalate (chars ", ") l

/-- `BuildService.build`: validate the toolchain (throwing a
toolchain-not-found fault), dispatch on the build system, and wrap any
error thrown by the chosen branch as a build-failed fault.  The second
component is the trace of build subprocess command lines, in order. -/
def build (env : BuildEnv) (profile : List Char) (buildSystem : BuildSystem) :
    Except BuildFault BuildResult × List (List Char) :=
  let validation := validateToolchain (detectToolchain env.toolEnv env.toolCache).1
  if !validation.allFound then
    (Except.error
      { code := ErrCode.toolchainNotFound
        message := chars "Missing toolchain components: " ++ joinComma validation.missing },
     [])
  else
    let inner :=
      match buildSystem with
      | BuildSystem.cmake => buildWithCMake env profile
      | BuildSystem.makefile => buildWithMakefile env profile
    match inner with
    | (Except.ok r, tr) => (Except.ok r, tr)
    | (Except.error m, tr) => (Except.error { code := ErrCode.buildFailed, message := m }, tr)

/-! ## FlashService -/

/-- A detected programmer (`ProgrammerInfo`). -/
structure ProgrammerInfo where
  type : List Char
  interface : List Char
  version : Option (List Char)
deriving DecidableEq, Repr

/-- The outcome of one inner flashing strategy (a `FlashResult` before
`flash` adds the duration). -/
structure FlashRes where
  success : Bool
  output : List Char
  error : Option (List Char)
deriving DecidableEq, Repr

/-- The `FlashResult` returned by `FlashService.flash`. -/
structure FlashResult where
  success : Bool
  output : List Char
  error : Option (List Char)
  duration : Nat
deriving DecidableEq, Repr

/-- Observable side effects of the flashing sequence, in order. -/
inductive FlashEvent where
  | execCmd (cmd : List Char)
  | writeFile (path : List Char)
  | deleteFile (path : List Char)
deriving DecidableEq, Repr

/-- The environment of one `FlashService` operation: the detected
programmer, the device-detection inputs, the toolchain inputs, the build
directory listing (`none` when the directory does not exist), whether the
`.hex` sibling of the binary already exists, and the subprocess layer. -/
structure FlashEnv where
  programmer : ProgrammerInfo
  deviceCache : Option DeviceInfo
  fsys : List FsFile
  toolEnv : ToolchainEnv
  toolCache : Option ToolchainInfo
  buildDirFiles : Option (List (List Char))
  hexFileOnDisk : Bool
  exec : List Char → ExecResult
  durationMs : Nat

/-- `FlashService.findElfFile`: the first file of the build directory whose
name ends in `.elf`, joined under `build/`; nothing when the directory is
missing. -/
def findElfFile (env : FlashEnv) : Option (List Char) :=
  match env.buildDirFiles with
  | none => none
  | some files =>
    (files.find? (fun f => (chars ".elf").isSuffixOf f)).map (fun f => chars "build/" ++ f)

/-- JS `path.dirname` restricted to forward-slash paths: everything before
the last separator, or `.` when there is none. -/
def dirnameOf (p : List Char) : List Char :=
  if hasSubstr p (chars "/") then ((p.reverse.dropWhile (fun c => c ≠ '/')).drop 1).reverse
  else chars "."

/-- JS `path.join` for the two shapes used here. -/
def joinPath (d f : List Char) : List Char :=
  if d == chars "." then f else d ++ chars "/" ++ f

/-- The OpenOCD flashing command line of `flashWithOpenOCD`. -/
def openocdFlashCmd (openocdPath programmerCfg targetConfig elfFile : List Char) : List Char :=
  openocdPath ++ chars " -f " ++ programmerCfg ++ chars " -f " ++ targetConfig
    ++ chars " -c \"program " ++ elfFile ++ chars " verify reset exit\""

/-- `FlashService.flashWithOpenOCD`: resolve the daemon (throwing when
absent), run the program/verify/reset/exit command, success is
exit-code-based. -/
def flashWithOpenOCD (env : FlashEnv) (elfFile targetConfig : List Char) :
    Except (List Char) FlashRes × List FlashEvent :=
  match getOpenOcdPath (detectToolchain env.toolEnv env.toolCache).1 with
  | none => (Except.error (chars "OpenOCD not found. Please install OpenOCD."), [])
  | some openocdPath =>
    let flashCmd := openocdFlashCmd openocdPath env.programmer.interface targetConfig elfFile
    let result := env.exec flashCmd
    (Except.ok
      { success := result.exitCode == 0, output := result.stdout
        error := if result.exitCode ≠ 0 then some result.stderr else none },
     [FlashEvent.execCmd flashCmd])

/-- The `.hex` sibling of the binary: `elfFile.replace('.elf', '.hex')`. -/
def hexFileFor (elfFile : List Char) : List Char :=
  replaceFirst elfFile (chars ".elf") (chars ".hex")

/-- The objcopy conversion command line of `flashWithJLink`. -/
def objcopyCmdFor (elfFile : List Char) : List Char :=
  chars "arm-none-eabi-objcopy -O ihex " ++ elfFile ++ chars " " ++ hexFileFor elfFile

/-- The temporary commander-script path of `flashWithJLink`. -/
def jlinkScriptPathFor (elfFile : List Char) : List Char :=
  joinPath (dirnameOf elfFile) (chars "jlink_flash.jlink")

/-- The J-Link commander command line of `flashWithJLink`. -/
def jlinkCmdFor (elfFile : List Char) (deviceName : Option (List Char)) : List Char :=
  chars "JLinkExe -device " ++ deviceName.getD (chars "STM32F407VG")
    ++ chars " -if SWD -speed 4000 -CommanderScript " ++ jlinkScriptPathFor elfFile

/-- `FlashService.flashWithJLink`: convert the binary to hex with objcopy
when the hex file is absent (throwing when the conversion fails), write the
commander script, invoke the commander, and delete the script afterwards
(the deletion is attempted regardless of the commander's outcome); success
requires a zero exit code AND the `O.K.` marker in the output. -/
def flashWithJLink (env : FlashEnv) (elfFile : List Char) (deviceName : Option (List Char)) :
    Except (List Char) FlashRes × List FlashEvent :=
  let rest := fun (preEvents : List FlashEvent) =>
    let scriptPath := jlinkScriptPathFor elfFile
    let jlinkCmd := jlinkCmdFor elfFile deviceName
    let result := env.exec jlinkCmd
    (Except.ok
      { success := (result.exitCode == 0) && hasSubstr result.stdout (chars "O.K.")
        output := result.stdout
        error := if result.exitCode ≠ 0 then some result.stderr else none },
     preEvents ++ [FlashEvent.writeFile scriptPath, FlashEvent.execCmd jlinkCmd,
                   FlashEvent.deleteFile scriptPath])
  if env.hexFileOnDisk then rest []
  else
    let objcopyResult := env.exec (objcopyCmdFor elfFile)
    if objcopyResult.exitCode ≠ 0 then
      (Except.error (chars "Failed to convert ELF to HEX for J-Link"),
       [FlashEvent.execCmd (objcopyCmdFor elfFile)])
    else rest [FlashEvent.execCmd (objcopyCmdFor elfFile)]

/-- The binary-resolution step of `flash`: the caller-supplied path when
present, otherwise the build-directory search. -/
def elfResolved (env : FlashEnv) (elfArg : Option (List Char)) : Option (List Char) :=
  match elfArg with
  | some e => some e
  | none => findElfFile env

/-- `FlashService.flash`: resolve the binary, detect the programmer,
dispatch on the programmer kind, and catch every thrown error into a
failed `FlashResult` carrying the message; the function is total, i.e. it
always resolves to a `FlashResult`. -/
def flash (env : FlashEnv) (elfArg : Option (List Char)) : FlashResult :=
  let inner : Except (List Char) FlashRes × List FlashEvent :=
    match elfResolved env elfArg with
    | none => (Except.error (chars "No .elf file found in build directory"), [])
    | some elfFile =>
      if env.programmer.type == chars "unknown" then
        (Except.error (chars "No programmer detected. Please connect ST-Link, J-Link, or CMSIS-DAP."), [])
      else
        let deviceInfo := (detectDevice env.deviceCache env.fsys).1
        let targetConfig := (deviceInfo.map (fun d => d.openocdTarget)).getD (chars "target/stm32f4x.cfg")
        if env.programmer.type == chars "jlink" then
          flashWithJLink env elfFile (deviceInfo.map (fun d => d.name))
        else
          flashWithOpenOCD env elfFile targetConfig
  match inner with
  | (Except.ok r, _) =>
    { success := r.success, output := r.output, error := r.error, duration := env.durationMs }
  | (Except.error msg, _) =>
    { success := false, output := [], error := some msg, duration := env.durationMs }

/-- `FlashService.testConnection`: boolean-only outcome — unknown
programmer, missing daemon, and a failing probe all yield `false` (the
surrounding try/catch turns any thrown error into `false` as well, so the
embedding is a total boolean function). -/
def testConnection (env : FlashEnv) : Bool :=
  if env.programmer.type == chars "unknown" then false
  else
    let deviceInfo := (detectDevice env.deviceCache env.fsys).1
    let targetConfig := (deviceInfo.map (fun d => d.openocdTarget)).getD (chars "target/stm32f4x.cfg")
    match getOpenOcdPath (detectToolchain env.toolEnv env.toolCache).1 with
    | none => false
    | some openocdPath =>
      let testCmd := openocdPath ++ chars " -f " ++ env.programmer.interface ++ chars " -f "
        ++ targetConfig ++ chars " -c \"init; reset halt; exit\""
      (env.exec testCmd).exitCode == 0

/-! ## Helper lemmas: scan success yields substring occurrences -/

/-- `s2` is a tail of `s1` (obtained by dropping a prefix). -/
def IsDropOf (s2 s1 : List Char) : Prop := ∃ n, s2 = List.drop n s1

theorem isDropOf_drop (n : Nat) (s : List Char) : IsDropOf (List.drop n s) s := ⟨n, rfl⟩

theorem isDropOf_trans {s3 s2 s1 : List Char} (h32 : IsDropOf s3 s2) (h21 : IsDropOf s2 s1) :
    IsDropOf s3 s1 := by
  obtain ⟨n, rfl⟩ := h32
  obtain ⟨m, rfl⟩ := h21
  exact ⟨m + n, List.drop_drop n m s1⟩

theorem hasSubstr_of_prefix_drop :
    ∀ (s : List Char) (i : Nat) (lit : List Char),
      lit.isPrefixOf (List.drop i s) = true → hasSubstr s lit = true := by
  intro s
  induction s with
  | nil =>
    intro i lit h
    rw [List.drop_nil] at h
    simp [hasSubstr, h]
  | cons c t ih =>
    intro i lit h
    cases i with
    | zero =>
      rw [List.drop_zero] at h
      simp [hasSubstr, h]
    | succ n =>
      rw [hasSubstr]
      split
      · rfl
      · exact ih n lit h

theorem hasSubstr_of_isDropOf {s2 s1 : List Char} (hd : IsDropOf s2 s1) {i : Nat}
    {lit : List Char} (hp : lit.isPrefixOf (List.drop i s2) = true) :
    hasSubstr s1 lit = true := by
  obtain ⟨n, rfl⟩ := hd
  rw [List.drop_drop] at hp
  exact hasSubstr_of_prefix_drop s1 (n + i) lit hp

theorem scanFor_eq_some {α : Type} (lit : List Char) (k : List Char → Option α) :
    ∀ (s : List Char) (r : α), scanFor lit k s = some r →
      ∃ i, lit.isPrefixOf (List.drop i s) = true ∧
        k (List.drop lit.length (List.drop i s)) = some r := by
  intro s
  induction s with
  | nil =>
    intro r h
    rw [scanFor] at h
    split at h
    · refine ⟨0, ?_, ?_⟩ <;> simp_all [List.drop_nil]
    · exact Option.noConfusion h
  | cons c t ih =>
    intro r h
    rw [scanFor] at h
    split at h
    next r2 heq =>
      split at heq
      · cases h
        exact ⟨0, by simp_all, by simp_all⟩
      · exact Option.noConfusion heq
    next heq =>
      obtain ⟨i, hp, hk⟩ := ih r h
      exact ⟨i + 1, hp, hk⟩

theorem takeWhile1_rest {p : Char → Bool} {s : List Char} {x : List Char × List Char}
    (h : takeWhile1 p s = some x) : IsDropOf x.2 s := by
  simp only [takeWhile1] at h
  split at h
  · exact Option.noConfusion h
  · obtain rfl := Option.some.inj h
    exact ⟨(s.takeWhile p).length, rfl⟩

theorem stripLit_rest {lit s s2 : List Char} (h : stripLit lit s = some s2) : IsDropOf s2 s := by
  simp only [stripLit] at h
  split at h
  · obtain rfl := Option.some.inj h
    exact ⟨lit.length, rfl⟩
  · exact Option.noConfusion h

theorem matchMemSection_rest {s : List Char}
    {y : (List Char × List Char × List Char) × List Char}
    (h : matchMemSection s = some y) : IsDropOf y.2 s := by
  simp only [matchMemSection, bind, Option.bind_eq_some] at h
  obtain ⟨⟨a1, s1⟩, h1, h⟩ := h
  obtain ⟨⟨a2, s2⟩, h2, h⟩ := h
  obtain ⟨⟨a3, s3⟩, h3, h⟩ := h
  obtain ⟨⟨a4, s4⟩, h4, h⟩ := h
  obtain ⟨⟨a5, s5⟩, h5, h⟩ := h
  obtain ⟨⟨a6, s6⟩, h6, h⟩ := h
  obtain ⟨⟨a7, s7⟩, h7, h⟩ := h
  obtain ⟨⟨a8, s8⟩, h8, h⟩ := h
  obtain ⟨⟨a9, s9⟩, h9, h⟩ := h
  obtain ⟨⟨a10, s10⟩, h10, h⟩ := h
  have d1 := takeWhile1_rest h1
  have d2 := takeWhile1_rest h2
  have d3 := takeWhile1_rest h3
  have d4 := takeWhile1_rest h4
  have d5 := takeWhile1_rest h5
  have d6 := takeWhile1_rest h6
  have d7 := takeWhile1_rest h7
  have d8 := takeWhile1_rest h8
  have d9 := takeWhile1_rest h9
  have d10 := takeWhile1_rest h10
  have ds10 : IsDropOf s10 s :=
    isDropOf_trans d10 (isDropOf_trans d9 (isDropOf_trans d8 (isDropOf_trans d7
      (isDropOf_trans d6 (isDropOf_trans d5 (isDropOf_trans d4 (isDropOf_trans d3
        (isDropOf_trans d2 d1))))))))
  split at h
  next c rest heq =>
    obtain rfl := Option.some.inj h
    refine isDropOf_trans ?_ ds10
    have heq2 : s10 = '%' :: rest := heq
    exact ⟨1, by rw [heq2]; rfl⟩
  next => exact Option.noConfusion h

theorem parseMemoryUsage_requires_both (out : List Char) (u : MemoryUsage)
    (h : parseMemoryUsage out = some u) :
    hasSubstr out (chars "FLASH:") = true ∧ hasSubstr out (chars "RAM:") = true := by
  unfold parseMemoryUsage at h
  obtain ⟨i, _, h1⟩ := scanFor_eq_some _ _ _ _ h
  have ds1 : IsDropOf (List.drop (chars "Memory region").length (List.drop i out)) out :=
    isDropOf_trans (isDropOf_drop _ _) (isDropOf_drop _ _)
  simp only [bind, Option.bind_eq_some] at h1
  obtain ⟨⟨a1, s2⟩, ht1, h1⟩ := h1
  obtain ⟨s3, ht2, h1⟩ := h1
  have ds3 : IsDropOf s3 out :=
    isDropOf_trans (stripLit_rest ht2) (isDropOf_trans (takeWhile1_rest ht1) ds1)
  obtain ⟨j, hpF, h2⟩ := scanFor_eq_some _ _ _ _ h1
  have hFLASH : hasSubstr out (chars "FLASH:") = true := hasSubstr_of_isDropOf ds3 hpF
  have ds4 : IsDropOf (List.drop (chars "FLASH:").length (List.drop j s3)) out :=
    isDropOf_trans (isDropOf_trans (isDropOf_drop _ _) (isDropOf_drop _ _)) ds3
  simp only [bind, Option.bind_eq_some] at h2
  obtain ⟨⟨fcaps, s5⟩, hm, h2⟩ := h2
  have ds5 : IsDropOf s5 out := isDropOf_trans (matchMemSection_rest hm) ds4
  obtain ⟨j2, hpR, _⟩ := scanFor_eq_some _ _ _ _ h2
  exact ⟨hFLASH, hasSubstr_of_isDropOf ds5 hpR⟩

/-! ## Claim theorems -/

/-- A workspace holding a real `.ioc` project file (whose content names
STM32F767ZI) and a Makefile naming STM32F407VG. -/
def iocAndMakefileWorkspace : List FsFile :=
  [⟨chars "app.ioc", 0, chars "Mcu.Name=STM32F767ZI\n"⟩,
   ⟨chars "Makefile", 0, chars "CFLAGS = -DSTM32F407VGxx\n"⟩]

/-- C1: with both an `.ioc` file and a Makefile present and naming
different devices, `detectDevice` returns the MAKEFILE device, not the
`.ioc` one: `findFile` compares names by plain equality, so the search for
a file literally named `*.ioc` never finds `app.ioc`, even though the
`.ioc` content does carry a device name the `Mcu.Name` pattern extracts. -/
theorem detectDevice_ignores_real_ioc :
    iocDeviceMatch (chars "Mcu.Name=STM32F767ZI\n") = some (chars "STM32F767ZI") ∧
    detectFromIoc iocAndMakefileWorkspace = none ∧
    (detectDevice none iocAndMakefileWorkspace).1 = some (parseDeviceName (chars "STM32F407VG")) ∧
    (detectDevice none iocAndMakefileWorkspace).1 ≠ some (parseDeviceName (chars "STM32F767ZI")) := by
  decide

/-- A line carrying the uppercase error marker and the warning marker. -/
def mixedMarkerLine : List Char := chars "ERROR: warning: unused variable"

/-- C2 counterexample: a line containing the error marker `ERROR:` and the
warning marker `warning:` is collected by BOTH `parseErrors` and
`parseWarnings` (the warning filter only excludes lowercase `error:`). -/
theorem uppercase_error_line_in_both_lists :
    hasSubstr mixedMarkerLine (chars "ERROR:") = true ∧
    hasSubstr mixedMarkerLine (chars "warning:") = true ∧
    parseErrors mixedMarkerLine = [mixedMarkerLine] ∧
    parseWarnings mixedMarkerLine = [mixedMarkerLine] := by
  decide

/-- C2 amended: a line containing both the warning marker and the LOWERCASE
error marker `error:` lands (trimmed) in the errors list and is not
classified as a warning line. -/
theorem error_marked_line_never_warning (output line : List Char)
    (hmem : line ∈ splitOnNl output)
    (hw : hasSubstr line (chars "warning:") = true)
    (he : hasSubstr line (chars "error:") = true) :
    trimChars line ∈ parseErrors output ∧ isWarnLine line = false := by
  refine ⟨?_, by simp [isWarnLine, he]⟩
  unfold parseErrors
  exact List.mem_map_of_mem _ (List.mem_filter.mpr ⟨hmem, by simp [isErrLine, he]⟩)

/-- A one-line output with both `error:` and `warning:` markers. -/
def bothMarkersOutput : List Char := chars "x error: warning: y"

/-- Witness for `error_marked_line_never_warning` at a concrete line. -/
theorem error_marked_line_never_warning_check :
    trimChars bothMarkersOutput ∈ parseErrors bothMarkersOutput ∧
    isWarnLine bothMarkersOutput = false :=
  error_marked_line_never_warning bothMarkersOutput bothMarkersOutput
    (by decide) (by decide) (by decide)

/-- C4: a second `detectToolchain` call returns exactly the first call's
snapshot and cache without consulting the (arbitrarily different)
environment, i.e. no re-probing; and after `clearCache` the next call is a
fresh probe of the current environment. -/
theorem toolchain_cache_behavior :
    (∀ (env env2 : ToolchainEnv) (cached : Option ToolchainInfo),
      detectToolchain env2 (detectToolchain env cached).2 =
        ((detectToolchain env cached).1, (detectToolchain env cached).2)) ∧
    (∀ (env : ToolchainEnv) (cached : Option ToolchainInfo),
      detectToolchain env (clearCache cached) = (probeToolchain env, some (probeToolchain env))) := by
  constructor
  · intro env env2 cached
    cases cached <;> rfl
  · intro env cached
    rfl

/-- A workspace whose only device-naming artifact is a Makefile with the
define `-DSTM32F407VGxx`. -/
def makefileOnlyWorkspace : List FsFile :=
  [⟨chars "Makefile", 0, chars "CFLAGS = -DSTM32F407VGxx\n"⟩]

/-- C5: the Makefile define `-DSTM32F407VGxx` yields family `STM32F4`,
debug target `target/stm32f4x.cfg` and the F4 table RAM size (192 KB). -/
theorem makefile_define_f407_detection :
    (detectDevice none makefileOnlyWorkspace).1 = some
      { name := chars "STM32F407VG", family := chars "STM32F4", line := chars "stm32f4x",
        flashSize := 512, ramSize := 192, openocdTarget := chars "target/stm32f4x.cfg" } ∧
    ramSizeTable.lookup (chars "F4") = some 192 := by
  decide

/-- C6: on the documented sample block, `parseMemoryUsage` returns
12345/65536/18.8% for FLASH and 2048/131072/1.6% for RAM; and a value is
returned only when the single pattern matches both the FLASH and the RAM
section of the output (otherwise the field is absent). -/
theorem memory_usage_parsing :
    (parseMemoryUsage sampleMemOutput = some
      { flash := { used := 12345, total := 65536, percentage := mkRat 188 10 }
        ram := { used := 2048, total := 131072, percentage := mkRat 16 10 } }) ∧
    (∀ (out : List Char) (u : MemoryUsage), parseMemoryUsage out = some u →
      hasSubstr out (chars "FLASH:") = true ∧ hasSubstr out (chars "RAM:") = true) :=
  ⟨by decide, parseMemoryUsage_requires_both⟩

/-- Witness for `memory_usage_parsing` at the sample output. -/
theorem memory_usage_parsing_check :
    hasSubstr sampleMemOutput (chars "FLASH:") = true ∧
    hasSubstr sampleMemOutput (chars "RAM:") = true :=
  memory_usage_parsing.2 sampleMemOutput
    { flash := { used := 12345, total := 65536, percentage := mkRat 188 10 }
      ram := { used := 2048, total := 131072, percentage := mkRat 16 10 } } (by decide)

/-- C8: a snapshot with gcc and openocd found but gdb and make missing
validates to `allFound = false` with `missing = [gdb, make]`, in detection
order. -/
theorem validate_missing_gdb_make (t : ToolchainInfo)
    (hgcc : t.gcc.found = true) (hgdb : t.gdb.found = false)
    (hocd : t.openocd.found = true) (hmake : t.make.found = false) :
    validateToolchain t = { allFound := false, missing := [chars "gdb", chars "make"] } := by
  simp [validateToolchain, hgcc, hgdb, hocd, hmake]

/-- A snapshot missing exactly the debugger and make. -/
def partialToolchain : ToolchainInfo :=
  { gcc := { found := true, path := some (chars "arm-none-eabi-gcc"), version := none, error := none }
    gdb := { found := false, path := none, version := none
             error := some (chars "arm-none-eabi-gdb not found in PATH or common locations") }
    openocd := { found := true, path := some (chars "openocd"), version := none, error := none }
    make := { found := false, path := none, version := none
              error := some (chars "make not found in PATH or common locations") }
    cmake := { found := false, path := none, version := none
               error := some (chars "cmake not found in PATH or common locations") } }

/-- Witness for `validate_missing_gdb_make` at a concrete snapshot. -/
theorem validate_missing_gdb_make_check :
    validateToolchain partialToolchain = { allFound := false, missing := [chars "gdb", chars "make"] } :=
  validate_missing_gdb_make partialToolchain rfl rfl rfl rfl

/-- C9: whenever no OpenOCD path is resolvable from the snapshot,
`testConnection` evaluates to `false` (the embedding is a total boolean
function, so no exception or rejection is possible). -/
theorem testConnection_false_without_openocd (env : FlashEnv)
    (h : getOpenOcdPath (detectToolchain env.toolEnv env.toolCache).1 = none) :
    testConnection env = false := by
  unfold testConnection
  split
  · rfl
  · rw [h]

/-- An environment in which no tool is on the path or in common
locations. -/
def noToolsEnv : ToolchainEnv :=
  { platform := chars "linux", commandOnPath := fun _ => false, versionOf := fun _ => none
    commonLocation := fun _ => none, executableAt := fun _ => false }

/-- A subprocess layer where every command succeeds with empty output. -/
def okExec : List Char → ExecResult := fun _ => { stdout := [], stderr := [], exitCode := 0 }

/-- A flash environment with an ST-Link attached but no OpenOCD anywhere. -/
def noOpenOcdFlashEnv : FlashEnv :=
  { programmer := { type := chars "stlink", interface := chars "interface/stlink.cfg", version := none }
    deviceCache := none, fsys := [], toolEnv := noToolsEnv, toolCache := none
    buildDirFiles := some [chars "firmware.elf"], hexFileOnDisk := false
    exec := okExec, durationMs := 2 }

/-- Witness for `testConnection_false_without_openocd`. -/
theorem testConnection_false_without_openocd_check :
    testConnection noOpenOcdFlashEnv = false :=
  testConnection_false_without_openocd noOpenOcdFlashEnv rfl

/-- An environment in which every tool is found on the path. -/
def allToolsEnv : ToolchainEnv :=
  { platform := chars "linux", commandOnPath := fun _ => true, versionOf := fun _ => none
    commonLocation := fun _ => none, executableAt := fun _ => false }

/-- A build environment with a complete toolchain and succeeding
subprocesses. -/
def cmakeProbeEnv : BuildEnv :=
  { toolEnv := allToolsEnv, toolCache := none, exec := okExec, cpus := 4, durationMs := 7 }

/-- C3 counterexample: with the CMake build system, the unknown profile
`FOO` is NOT rejected locally — the configure and build subprocesses are
both spawned with the profile interpolated into the configure command, and
no invalid-profile failure is ever reported. -/
theorem cmake_unknown_profile_spawns_configure :
    BUILD_PROFILES.lookup (chars "FOO") = none ∧
    (build cmakeProbeEnv (chars "FOO") BuildSystem.cmake).2 =
      [chars "cmake -DCMAKE_BUILD_TYPE=FOO -DBUILD_PROFILE=FOO ..",
       chars "cmake --build . -j4"] ∧
    (build cmakeProbeEnv (chars "FOO") BuildSystem.cmake).1 =
      Except.ok { success := true, output := [], memoryUsage := none, duration := 7
                  errors := none, warnings := none } := by
  refine ⟨by decide, by decide, rfl⟩

/-- C3 amended: with the MAKEFILE build system and a valid toolchain, an
unknown profile fails with a local invalid-profile build fault before any
build subprocess is spawned (empty trace). -/
theorem makefile_unknown_profile_fails_locally (env : BuildEnv) (profile : List Char)
    (hbad : BUILD_PROFILES.lookup profile = none)
    (hok : (validateToolchain (detectToolchain env.toolEnv env.toolCache).1).allFound = true) :
    build env profile BuildSystem.makefile =
      (Except.error { code := ErrCode.buildFailed
                      message := chars "Invalid build profile: " ++ profile }, []) := by
  simp only [build, buildWithMakefile, hok, hbad, Bool.not_true, Bool.false_eq_true, if_false]

/-- Witness for `makefile_unknown_profile_fails_locally`. -/
theorem makefile_unknown_profile_fails_locally_check :
    build cmakeProbeEnv (chars "BAD") BuildSystem.makefile =
      (Except.error { code := ErrCode.buildFailed
                      message := chars "Invalid build profile: " ++ chars "BAD" }, []) :=
  makefile_unknown_profile_fails_locally cmakeProbeEnv (chars "BAD") (by decide) (by decide)

/-- C7: for a J-Link programmer and a binary without an existing hex
sibling, when the conversion succeeds the flashing sequence is exactly:
objcopy, script write, commander invocation, script deletion — the objcopy
conversion strictly before the commander, and the deletion present in the
trace unconditionally (the trace does not depend on the commander's exit
code, so it also holds when the commander fails). -/
theorem jlink_objcopy_then_commander_cleanup (env : FlashEnv) (elfFile : List Char)
    (deviceName : Option (List Char))
    (hnohex : env.hexFileOnDisk = false)
    (hconv : (env.exec (objcopyCmdFor elfFile)).exitCode = 0) :
    (flashWithJLink env elfFile deviceName).2 =
      [FlashEvent.execCmd (objcopyCmdFor elfFile),
       FlashEvent.writeFile (jlinkScriptPathFor elfFile),
       FlashEvent.execCmd (jlinkCmdFor elfFile deviceName),
       FlashEvent.deleteFile (jlinkScriptPathFor elfFile)] ∧
    FlashEvent.deleteFile (jlinkScriptPathFor elfFile) ∈ (flashWithJLink env elfFile deviceName).2 := by
  have hE : (flashWithJLink env elfFile deviceName).2 =
      [FlashEvent.execCmd (objcopyCmdFor elfFile),
       FlashEvent.writeFile (jlinkScriptPathFor elfFile),
       FlashEvent.execCmd (jlinkCmdFor elfFile deviceName),
       FlashEvent.deleteFile (jlinkScriptPathFor elfFile)] := by
    simp [flashWithJLink, hnohex, hconv]
  exact ⟨hE, by rw [hE]; simp⟩

/-- The commander command of `flashWithJLink` always starts with the
`JLinkExe` tool name. -/
theorem jlink_cmd_prefixed (elfFile : List Char) (d : Option (List Char)) :
    (chars "JLinkExe").isPrefixOf (jlinkCmdFor elfFile d) = true := by rfl

/-- A failed OpenOCD flash (non-zero exit) always carries an error
message. -/
theorem flashWithOpenOCD_fail_has_error {env : FlashEnv} {elfFile targetConfig : List Char}
    {r : FlashRes} {evs : List FlashEvent}
    (h : flashWithOpenOCD env elfFile targetConfig = (Except.ok r, evs))
    (hs : r.success = false) : r.error ≠ none := by
  unfold flashWithOpenOCD at h
  split at h
  · simp at h
  · rw [Prod.mk.injEq] at h
    obtain ⟨h1, -⟩ := h
    obtain rfl := (Except.ok.inj h1).symm
    simp only at hs ⊢
    rw [if_pos]
    · simp
    · exact beq_eq_false_iff_ne.mp hs

/-- A J-Link flash outcome with `success = false` but no error message can
only come from a commander run that exited zero without the `O.K.`
marker. -/
theorem flashWithJLink_fail_no_error {env : FlashEnv} {elfFile : List Char}
    {deviceName : Option (List Char)} {r : FlashRes} {evs : List FlashEvent}
    (h : flashWithJLink env elfFile deviceName = (Except.ok r, evs))
    (hs : r.success = false) (he : r.error = none) :
    (env.exec (jlinkCmdFor elfFile deviceName)).exitCode = 0 ∧
    hasSubstr (env.exec (jlinkCmdFor elfFile deviceName)).stdout (chars "O.K.") = false := by
  unfold flashWithJLink at h
  dsimp only at h
  split at h
  · rw [Prod.mk.injEq] at h
    obtain ⟨h1, -⟩ := h
    obtain rfl := (Except.ok.inj h1).symm
    simp only at hs he
    split at he
    · exact Option.noConfusion he
    next hexit =>
      have hz : (env.exec (jlinkCmdFor elfFile deviceName)).exitCode = 0 := by
        simpa using hexit
      refine ⟨hz, ?_⟩
      rw [hz] at hs
      simpa using hs
  · split at h
    · simp at h
    · rw [Prod.mk.injEq] at h
      obtain ⟨h1, -⟩ := h
      obtain rfl := (Except.ok.inj h1).symm
      simp only at hs he
      split at he
      · exact Option.noConfusion he
      next hexit =>
        have hz : (env.exec (jlinkCmdFor elfFile deviceName)).exitCode = 0 := by
          simpa using hexit
        refine ⟨hz, ?_⟩
        rw [hz] at hs
        simpa using hs

/-- A J-Link environment whose commander exits zero but never prints the
`O.K.` success marker. -/
def jlinkNoMarkerEnv : FlashEnv :=
  { programmer := { type := chars "jlink", interface := chars "interface/jlink.cfg", version := none }
    deviceCache := none, fsys := [], toolEnv := allToolsEnv, toolCache := none
    buildDirFiles := some [chars "firmware.elf"], hexFileOnDisk := true
    exec := okExec, durationMs := 4 }

/-- C10 counterexample: a J-Link run that exits zero without the success
marker makes `flash` resolve to a failed `FlashResult` whose error field is
ABSENT — an internal failure without a failure message. -/
theorem flash_jlink_marker_failure_no_error :
    (flash jlinkNoMarkerEnv (some (chars "build/firmware.elf"))).success = false ∧
    (flash jlinkNoMarkerEnv (some (chars "build/firmware.elf"))).error = none :=
  ⟨rfl, rfl⟩

/-- C10 amended: `flash` always resolves to a `FlashResult` (the embedding
is total, every thrown error is caught into a failed result carrying its
message and a duration); the single exception to "failures carry an error
message" is a J-Link commander run that exits zero without the `O.K.`
marker, which is the only way to obtain `success = false` with an absent
error field. -/
theorem flash_failure_error_field (env : FlashEnv) (elfArg : Option (List Char))
    (hfail : (flash env elfArg).success = false)
    (hnone : (flash env elfArg).error = none) :
    env.programmer.type = chars "jlink" ∧
    ∃ cmd, (chars "JLinkExe").isPrefixOf cmd = true ∧
      (env.exec cmd).exitCode = 0 ∧
      hasSubstr (env.exec cmd).stdout (chars "O.K.") = false := by
  unfold flash at hfail hnone
  dsimp only at hfail hnone
  cases helf : elfResolved env elfArg with
  | none =>
    rw [helf] at hnone
    simp at hnone
  | some elfFile =>
    rw [helf] at hfail hnone
    dsimp only at hfail hnone
    by_cases hunk : (env.programmer.type == chars "unknown") = true
    · rw [if_pos hunk] at hnone
      simp at hnone
    · rw [if_neg hunk] at hfail hnone
      by_cases hjl : (env.programmer.type == chars "jlink") = true
      · rw [if_pos hjl] at hfail hnone
        rcases hF : flashWithJLink env elfFile
            (Option.map (fun d => d.name) (detectDevice env.deviceCache env.fsys).1) with ⟨fst, snd⟩
        rw [hF] at hfail hnone
        cases fst with
        | error m => simp at hnone
        | ok r =>
          have hres := flashWithJLink_fail_no_error hF hfail hnone
          exact ⟨eq_of_beq hjl, _, jlink_cmd_prefixed _ _, hres.1, hres.2⟩
      · rw [if_neg hjl] at hfail hnone
        rcases hF : flashWithOpenOCD env elfFile
            ((Option.map (fun d => d.openocdTarget) (detectDevice env.deviceCache env.fsys).1).getD
              (chars "target/stm32f4x.cfg")) with ⟨fst, snd⟩
        rw [hF] at hfail hnone
        cases fst with
        | error m => simp at hnone
        | ok r =>
          exact absurd hnone (flashWithOpenOCD_fail_has_error hF hfail)

/-- Witness for `flash_failure_error_field` at the no-marker
environment. -/
theorem flash_failure_error_field_check :
    jlinkNoMarkerEnv.programmer.type = chars "jlink" ∧
    ∃ cmd, (chars "JLinkExe").isPrefixOf cmd = true ∧
      (jlinkNoMarkerEnv.exec cmd).exitCode = 0 ∧
      hasSubstr (jlinkNoMarkerEnv.exec cmd).stdout (chars "O.K.") = false :=
  flash_failure_error_field jlinkNoMarkerEnv (some (chars "build/firmware.elf")) rfl rfl

/-- A J-Link environment with no hex file on disk, a succeeding objcopy,
and a FAILING commander invocation (exit 1). -/
def jlinkFailEnv : FlashEnv :=
  { programmer := { type := chars "jlink", interface := chars "interface/jlink.cfg", version := none }
    deviceCache := none, fsys := [], toolEnv := allToolsEnv, toolCache := none
    buildDirFiles := some [chars "firmware.elf"], hexFileOnDisk := false
    exec := fun cmd =>
      if (chars "JLinkExe").isPrefixOf cmd then
        { stdout := chars "Cannot connect to target.", stderr := chars "connect error", exitCode := 1 }
      else { stdout := [], stderr := [], exitCode := 0 }
    durationMs := 3 }

/-- Witness for `jlink_objcopy_then_commander_cleanup`: the commander exits
non-zero, and the script deletion still happens after it. -/
theorem jlink_objcopy_then_commander_cleanup_check :
    (flashWithJLink jlinkFailEnv (chars "build/firmware.elf") none).2 =
      [FlashEvent.execCmd (objcopyCmdFor (chars "build/firmware.elf")),
       FlashEvent.writeFile (jlinkScriptPathFor (chars "build/firmware.elf")),
       FlashEvent.execCmd (jlinkCmdFor (chars "build/firmware.elf") none),
       FlashEvent.deleteFile (jlinkScriptPathFor (chars "build/firmware.elf"))] ∧
    FlashEvent.deleteFile (jlinkScriptPathFor (chars "build/firmware.elf"))
      ∈ (flashWithJLink jlinkFailEnv (chars "build/firmware.elf") none).2 :=
  jlink_objcopy_then_commander_cleanup jlinkFailEnv (chars "build/firmware.elf") none rfl (by decide)
